import Mathlib

/-!
Verification development for the x402 demo facilitator.

The HTTP transport layer (the Express route handlers for POST /verify and
POST /settle) is embedded directly from `src/facilitator/src/index.ts`.
The `x402Facilitator` core and the exact-EVM scheme handler live in the
external `@x402` packages, so their behaviour is modelled from the spec
(definitions carrying a `Modelled from the spec:` doc comment), faithful to
the ordered check list of spec section 4.2, the settlement orchestration of
section 4.3 and the hook discipline of section 4.4.

Conventions of the shallow embedding:
* possibly-missing JSON fields become `Option`;
* JS string amounts and timestamps become `Nat` (atomic units, Unix seconds);
* a thrown JS `Error` becomes `Except`/an explicit `thrown` constructor
  carrying the error message;
* every call into a ledger capability is recorded in a `List LedgerCall`
  trace so that claims about which capabilities are exercised are statable;
* each `console.log` statement becomes one appended output line, and a hook
  body becomes a state transformer on its context record, so that frame
  claims about hooks are statable.
-/

namespace X402

/-- EIP-3009 authorization, spec section 3: the client's signed transfer
permission. Amounts and timestamps are `Nat` (atomic units / Unix seconds). -/
structure Authorization where
  fromAddress : String
  toAddress : String
  value : Nat
  validAfter : Nat
  validBefore : Nat
  nonce : String
  deriving DecidableEq, Repr

/-- Payment requirements declared by the resource server, spec section 3. -/
structure PaymentRequirements where
  network : String
  scheme : String
  asset : String
  amount : Nat
  payTo : String
  maxTimeoutSeconds : Nat
  deriving DecidableEq, Repr

/-- The client's signed payment payload, spec section 3. `asset` is the
scheme-specific target-asset field compared against `requirements.asset`
in the structural check (spec section 4.2 step 2). -/
structure PaymentPayload where
  network : String
  scheme : String
  asset : String
  authorization : Authorization
  signature : String
  deriving DecidableEq, Repr

/-- Reason codes for verification decision failures, spec section 7. -/
inductive InvalidReason where
  | SchemeMismatch
  | AssetMismatch
  | AmountMismatch
  | RecipientMismatch
  | ExpiredOrNotYetValid
  | BadSignature
  | InsufficientFunds
  deriving DecidableEq, Repr

/-- Human-readable reason text used inside abort messages. -/
def InvalidReason.text : InvalidReason → String
  | .SchemeMismatch => "scheme mismatch"
  | .AssetMismatch => "asset mismatch"
  | .AmountMismatch => "amount mismatch"
  | .RecipientMismatch => "recipient mismatch"
  | .ExpiredOrNotYetValid => "authorization expired or not yet valid"
  | .BadSignature => "invalid signature"
  | .InsufficientFunds => "insufficient funds"

/-- `VerifyResult`, spec section 3: a sum of a valid decision carrying the
payer and an invalid decision carrying a reason code. -/
inductive VerifyResult where
  | Valid (payer : String)
  | Invalid (reason : InvalidReason)
  deriving DecidableEq, Repr

/-- `SettleResult`, spec section 3. -/
inductive SettleResult where
  | Success (transaction : String) (network : String) (payer : String)
  | Failure (errorReason : String) (network : String)
  deriving DecidableEq, Repr

/-! ### JS string semantics

`String.prototype.includes` and `String.prototype.replace` with a string
pattern (first occurrence only), as used at lines 216 and 220 of
`src/facilitator/src/index.ts`, embedded by structural recursion over the
character list of the string. -/

/-- First occurrence of `pat` inside `cs`: returns the characters strictly
before the occurrence and the characters strictly after it. -/
def subFind : List Char → List Char → Option (List Char × List Char)
  | [], pat => if pat = [] then some ([], []) else none
  | c :: rest, pat =>
    if pat.isPrefixOf (c :: rest) then some ([], List.drop pat.length (c :: rest))
    else (subFind rest pat).map (fun p => (c :: p.1, p.2))

/-- JS `s.includes(pat)` for non-empty `pat`. -/
def jsIncludes (s pat : String) : Bool :=
  (subFind s.data pat.data).isSome

/-- JS `s.replace(pat, repl)` with a string pattern: replaces only the
first occurrence of `pat`, and returns `s` unchanged when `pat` does not
occur. -/
def jsReplaceFirst (s pat repl : String) : String :=
  match subFind s.data pat.data with
  | some p => String.mk (p.1 ++ repl.data ++ p.2)
  | none => s


/-! ### Ledger collaborator capabilities

The facilitator's signer bundle, embedded from `toFacilitatorEvmSigner`
at lines 47-82 of `src/facilitator/src/index.ts`: three read-only
capabilities (`getCode`, `readContract`, `verifyTypedData`) and three
mutating ones (`writeContract`, `sendTransaction`,
`waitForTransactionReceipt`). Capabilities are total functions of the
external ledger state they close over. -/

/-- Outcome of a mutating submission: a transaction hash, or a
ledger-reported revert with a decoded reason. -/
inductive SubmitOutcome where
  | txHash (h : String)
  | reverted (reason : String)
  deriving DecidableEq, Repr

/-- Outcome of awaiting a transaction receipt under the bounded wait of
spec section 4.3 step 3. -/
inductive WaitOutcome where
  | confirmed
  | timedOut
  | revertedWith (reason : String)
  deriving DecidableEq, Repr

/-- The six ledger capability names, used in call traces. -/
inductive LedgerCall where
  | getCode
  | readContract
  | verifyTypedData
  | writeContract
  | sendTransaction
  | waitForTransactionReceipt
  deriving DecidableEq, Repr

/-- A ledger capability is mutating when it submits or observes a
transaction of the facilitator, spec section 6. -/
def LedgerCall.isMutating : LedgerCall → Bool
  | .writeContract => true
  | .sendTransaction => true
  | .waitForTransactionReceipt => true
  | _ => false

/-- The facilitator's bundle of ledger capabilities (the signer built at
lines 47-82 of `src/facilitator/src/index.ts`). `readContract` is used for
`balanceOf` reads and returns the balance; `verifyTypedData` checks an
EIP-712 signature over the authorization. -/
structure FacilitatorEvmSigner where
  getCode : String → Option String
  readContract : String → String → List String → Nat
  verifyTypedData : Authorization → String → Bool
  writeContract : String → String → List String → SubmitOutcome
  sendTransaction : String → String → SubmitOutcome
  waitForTransactionReceipt : String → WaitOutcome

/-! ### Verification engine (spec-modelled) -/

/-- Modelled from the spec: section 4.2 steps 1-5 of the exact-EVM scheme
handler (`registerExactEvmScheme`, external `@x402/evm` package, registered
at lines 141-145 of `src/facilitator/src/index.ts`). The ordered,
short-circuiting structural checks prior to any collaborator call:
scheme/network match, asset equality, exact amount equality, recipient,
and the half-open time window `validAfter <= now < validBefore`.
`maxTimeoutSeconds` is not consulted (spec section 4.2 step 5). Returns
the first failing reason, or `none` when all structural checks pass. -/
def structuralChecks (now : Nat) (pay : PaymentPayload)
    (req : PaymentRequirements) : Option InvalidReason :=
  if pay.network ≠ req.network ∨ pay.scheme ≠ req.scheme then
    some .SchemeMismatch
  else if pay.asset ≠ req.asset then
    some .AssetMismatch
  else if pay.authorization.value ≠ req.amount then
    some .AmountMismatch
  else if pay.authorization.toAddress ≠ req.payTo then
    some .RecipientMismatch
  else if now < pay.authorization.validAfter ∨
      pay.authorization.validBefore ≤ now then
    some .ExpiredOrNotYetValid
  else
    none

/-- Modelled from the spec: section 4.2 steps 1-8, the full verification
pipeline of the exact-EVM scheme handler (external `@x402/evm` package).
After the structural checks it delegates the signature check to the
`verifyTypedData` capability (step 6) and the solvency check to a
`balanceOf` read through `readContract` (step 7). Returns the decision
together with the trace of ledger capabilities invoked. -/
def verifyExact (sg : FacilitatorEvmSigner) (now : Nat) (pay : PaymentPayload)
    (req : PaymentRequirements) : VerifyResult × List LedgerCall :=
  match structuralChecks now pay req with
  | some r => (.Invalid r, [])
  | none =>
    if sg.verifyTypedData pay.authorization pay.signature then
      if sg.readContract req.asset "balanceOf" [pay.authorization.fromAddress]
          < pay.authorization.value then
        (.Invalid .InsufficientFunds, [.verifyTypedData, .readContract])
      else
        (.Valid pay.authorization.fromAddress, [.verifyTypedData, .readContract])
    else
      (.Invalid .BadSignature, [.verifyTypedData])

/-! ### Scheme registry and facilitator service (spec-modelled) -/

/-- The registry contents of this deployment: `registerExactEvmScheme`
is called once at startup for network `eip155:11155111` with scheme
`exact` (lines 141-145 of `src/facilitator/src/index.ts`). -/
def registeredSchemes : List (String × String) :=
  [("eip155:11155111", "exact")]

/-- Operational (non-decision) failures of the facilitator core, thrown as
JS errors: an unregistered `(network, scheme)` pair (spec section 4.1), or
a settlement aborted by the internal pre-flight re-verification (spec
section 4.3, surfaced with the `Settlement aborted:` marker consumed by
the transport layer at lines 214-223 of `src/facilitator/src/index.ts`). -/
inductive FacError where
  | UnsupportedScheme (network : String) (scheme : String)
  | Aborted (reason : String)
  deriving DecidableEq, Repr

/-- The JS `Error.message` carried by a thrown facilitator error. -/
def FacError.message : FacError → String
  | .UnsupportedScheme n s => "Unsupported scheme: " ++ n ++ " / " ++ s
  | .Aborted r => "Settlement aborted: " ++ r

/-- Modelled from the spec: `facilitator.verify` (external `@x402/core`
package), section 4.4 dispatch: resolve the payload's `(network, scheme)`
in the registry — absent means an operational `UnsupportedScheme` error,
not an `Invalid` decision (spec section 4.1) — then run the scheme
handler's verification engine. -/
def facilitatorVerify (sg : FacilitatorEvmSigner) (now : Nat)
    (pay : PaymentPayload) (req : PaymentRequirements) :
    Except FacError VerifyResult × List LedgerCall :=
  if registeredSchemes.contains (pay.network, pay.scheme) then
    (.ok (verifyExact sg now pay req).1, (verifyExact sg now pay req).2)
  else
    (.error (.UnsupportedScheme pay.network pay.scheme), [])

/-- The argument list passed to `transferWithAuthorization` on the asset
contract, built from the authorization and signature. -/
def settleArgs (pay : PaymentPayload) : List String :=
  [pay.authorization.fromAddress, pay.authorization.toAddress,
   toString pay.authorization.value, toString pay.authorization.validAfter,
   toString pay.authorization.validBefore, pay.authorization.nonce,
   pay.signature]

/-- Modelled from the spec: `facilitator.settle` (external `@x402/core` and
`@x402/evm` packages), section 4.3. Resolve the scheme; re-run the
structural/time/signature checks (steps 1-6) — a failure there is thrown
as a `Settlement aborted:` error; then submit `transferWithAuthorization`
once through `writeContract` and await the receipt once through
`waitForTransactionReceipt`: a revert maps to `Failure` with the decoded
reason, a timeout maps to `Failure` with reason `settlement timeout` and
is not resubmitted, and a confirmation maps to `Success`. The trace
records every ledger capability invoked, in order. -/
def facilitatorSettle (sg : FacilitatorEvmSigner) (now : Nat)
    (pay : PaymentPayload) (req : PaymentRequirements) :
    Except FacError SettleResult × List LedgerCall :=
  if registeredSchemes.contains (pay.network, pay.scheme) then
    match structuralChecks now pay req with
    | some r => (.error (.Aborted r.text), [])
    | none =>
      if sg.verifyTypedData pay.authorization pay.signature then
        match sg.writeContract req.asset "transferWithAuthorization" (settleArgs pay) with
        | .reverted reason =>
          (.ok (.Failure reason pay.network), [.verifyTypedData, .writeContract])
        | .txHash h =>
          match sg.waitForTransactionReceipt h with
          | .timedOut =>
            (.ok (.Failure "settlement timeout" pay.network),
             [.verifyTypedData, .writeContract, .waitForTransactionReceipt])
          | .revertedWith reason =>
            (.ok (.Failure reason pay.network),
             [.verifyTypedData, .writeContract, .waitForTransactionReceipt])
          | .confirmed =>
            (.ok (.Success h pay.network pay.authorization.fromAddress),
             [.verifyTypedData, .writeContract, .waitForTransactionReceipt])
      else
        (.error (.Aborted InvalidReason.BadSignature.text), [.verifyTypedData])
  else
    (.error (.UnsupportedScheme pay.network pay.scheme), [])

/-! ### HTTP transport layer

Embedded from the Express route handlers at lines 156-229 of
`src/facilitator/src/index.ts`. A request body's possibly-missing
`paymentPayload` / `paymentRequirements` fields are `Option`s; the call
into `facilitator.verify` / `facilitator.settle` is abstracted by an
outcome value (a structural result, or a thrown error message), and each
handler additionally returns whether that call was made at all. -/

/-- The JSON bodies the facilitator routes can send. `abortBody er nw`
stands for the literal object `\x7b success: false, errorReason: er,
network: nw \x7d` built at lines 218-222, and `errorBody m` for
`\x7b error: m \x7d`. -/
inductive ResponseBody where
  | verifyBody (r : VerifyResult)
  | settleBody (r : SettleResult)
  | abortBody (success : Bool) (errorReason : String) (network : String)
  | errorBody (message : String)
  deriving DecidableEq, Repr

/-- An HTTP response: status code and JSON body. `res.json(x)` with no
explicit status sends status 200. -/
structure HttpResponse where
  status : Nat
  body : ResponseBody
  deriving DecidableEq, Repr

/-- Outcome of the awaited `facilitator.verify` call as seen by the route
handler: a returned `VerifyResponse`, or a thrown error with a message. -/
inductive VerifyCallOutcome where
  | ok (r : VerifyResult)
  | thrown (message : String)
  deriving DecidableEq, Repr

/-- Outcome of the awaited `facilitator.settle` call as seen by the route
handler. -/
inductive SettleCallOutcome where
  | ok (r : SettleResult)
  | thrown (message : String)
  deriving DecidableEq, Repr

/-- JS `req.body?.paymentPayload?.network || "unknown"` (line 221):
`||` takes the right operand on any falsy left operand, so a missing
payload and an empty-string network both yield `"unknown"`. -/
def networkOrUnknown (pp : Option PaymentPayload) : String :=
  match pp with
  | some p => if p.network = "" then "unknown" else p.network
  | none => "unknown"

/-- The POST /verify route handler, lines 156-185 of
`src/facilitator/src/index.ts`: missing `paymentPayload` or
`paymentRequirements` is answered 400 without calling
`facilitator.verify`; a returned result is sent as JSON (status 200); a
thrown error is answered 500 with an error body. The second component
records whether `facilitator.verify` was invoked. -/
def verifyRoute (pp : Option PaymentPayload) (pr : Option PaymentRequirements)
    (outcome : VerifyCallOutcome) : HttpResponse × Bool :=
  match pp, pr with
  | some _, some _ =>
    (match outcome with
     | .ok r => ⟨200, .verifyBody r⟩
     | .thrown m => ⟨500, .errorBody m⟩, true)
  | _, _ =>
    (⟨400, .errorBody "Missing paymentPayload or paymentRequirements"⟩, false)

/-- The POST /settle route handler, lines 191-229 of
`src/facilitator/src/index.ts`: missing fields are answered 400 without
calling `facilitator.settle`; a returned result is sent as JSON (status
200); a thrown error whose message contains `Settlement aborted:` is
answered with status 200 and the success-shaped body
`\x7b success: false, errorReason: message.replace("Settlement aborted: ", ""),
network: req.body?.paymentPayload?.network || "unknown" \x7d`; any other
thrown error is answered 500. The second component records whether
`facilitator.settle` was invoked. -/
def settleRoute (pp : Option PaymentPayload) (pr : Option PaymentRequirements)
    (outcome : SettleCallOutcome) : HttpResponse × Bool :=
  match pp, pr with
  | some _, some _ =>
    (match outcome with
     | .ok r => ⟨200, .settleBody r⟩
     | .thrown m =>
       if jsIncludes m "Settlement aborted:" then
         ⟨200, .abortBody false (jsReplaceFirst m "Settlement aborted: " "")
           (networkOrUnknown pp)⟩
       else
         ⟨500, .errorBody m⟩, true)
  | _, _ =>
    (⟨400, .errorBody "Missing paymentPayload or paymentRequirements"⟩, false)

/-- The POST /verify endpoint end to end: the route handler applied to the
outcome of `facilitator.verify` (an operational error surfaces as the
thrown error's message). -/
def verifyEndpoint (sg : FacilitatorEvmSigner) (now : Nat)
    (pp : Option PaymentPayload) (pr : Option PaymentRequirements) :
    HttpResponse × Bool :=
  match pp, pr with
  | some pay, some req =>
    verifyRoute (some pay) (some req)
      (match (facilitatorVerify sg now pay req).1 with
       | .ok r => .ok r
       | .error e => .thrown e.message)
  | _, _ =>
    (⟨400, .errorBody "Missing paymentPayload or paymentRequirements"⟩, false)

/-! ### Lifecycle hooks

Spec section 4.4: the facilitator owns before/after/failure hooks for
verify and settle, fired purely for observability. A hook receives a
context record; its body is embedded as a state transformer on that
context, each `console.log` call contributing one output line. A hook may
throw; the facilitator logs and swallows hook exceptions. -/

/-- Context handed to `onBeforeVerify` / `onBeforeSettle`. -/
structure BeforeContext where
  requirements : PaymentRequirements
  payload : PaymentPayload
  deriving DecidableEq, Repr

/-- Context handed to `onAfterVerify`. -/
structure VerifyAfterContext where
  requirements : PaymentRequirements
  result : VerifyResult
  deriving DecidableEq, Repr

/-- Context handed to `onAfterSettle`. -/
structure SettleAfterContext where
  requirements : PaymentRequirements
  result : SettleResult
  deriving DecidableEq, Repr

/-- The JS `Error` object carried by a failure context. -/
structure ErrorValue where
  message : String
  deriving DecidableEq, Repr

/-- Context handed to `onVerifyFailure` / `onSettleFailure`. -/
structure FailureContext where
  requirements : PaymentRequirements
  error : ErrorValue
  deriving DecidableEq, Repr

/-- An arbitrary registered hook set: each hook either returns its console
output or throws with a message. -/
structure FacHooks where
  onBeforeVerify : BeforeContext → Except String (List String)
  onAfterVerify : VerifyAfterContext → Except String (List String)
  onVerifyFailure : FailureContext → Except String (List String)
  onBeforeSettle : BeforeContext → Except String (List String)
  onAfterSettle : SettleAfterContext → Except String (List String)
  onSettleFailure : FailureContext → Except String (List String)

/-- Modelled from the spec: section 4.4 — a hook's failure is logged and
swallowed, never propagated as the operation's result. Running a hook
yields console output only. -/
def runHook (h : Except String (List String)) : List String :=
  match h with
  | .ok out => out
  | .error e => ["hook failure (swallowed): " ++ e]

/-- Modelled from the spec: section 4.4 — `facilitator.verify` with its
lifecycle hooks: fire `onBeforeVerify`, run the core operation, fire
`onAfterVerify` on a returned result or `onVerifyFailure` on a thrown
operational error, and return the core outcome untouched alongside the
accumulated console output. -/
def verifyWithHooks (hooks : FacHooks) (sg : FacilitatorEvmSigner) (now : Nat)
    (pay : PaymentPayload) (req : PaymentRequirements) :
    (Except FacError VerifyResult × List LedgerCall) × List String :=
  let pre := runHook (hooks.onBeforeVerify ⟨req, pay⟩)
  let core := facilitatorVerify sg now pay req
  let post :=
    match core.1 with
    | .ok r => runHook (hooks.onAfterVerify ⟨req, r⟩)
    | .error e => runHook (hooks.onVerifyFailure ⟨req, ⟨e.message⟩⟩)
  (core, pre ++ post)

/-- Modelled from the spec: section 4.4 — `facilitator.settle` with its
lifecycle hooks, same discipline as `verifyWithHooks`. -/
def settleWithHooks (hooks : FacHooks) (sg : FacilitatorEvmSigner) (now : Nat)
    (pay : PaymentPayload) (req : PaymentRequirements) :
    (Except FacError SettleResult × List LedgerCall) × List String :=
  let pre := runHook (hooks.onBeforeSettle ⟨req, pay⟩)
  let core := facilitatorSettle sg now pay req
  let post :=
    match core.1 with
    | .ok r => runHook (hooks.onAfterSettle ⟨req, r⟩)
    | .error e => runHook (hooks.onSettleFailure ⟨req, ⟨e.message⟩⟩)
  (core, pre ++ post)

/-! ### The concrete hooks registered in this deployment

Embedded from lines 85-138 of `src/facilitator/src/index.ts`. Every hook
body is a sequence of `console.log` statements reading context fields; no
statement assigns to the context, so each embedded transformer returns its
context unchanged together with the logged lines. -/

/-- `"─".repeat(60)`, the section separator used by the hooks. -/
def sectionLine : String :=
  String.mk (List.replicate 60 '─')

/-- The `onBeforeVerify` hook registered at lines 86-97. -/
def onBeforeVerifyHook (context : BeforeContext) :
    BeforeContext × List String :=
  (context,
   [ "\n" ++ sectionLine,
     "📋 [VERIFY] Step 1: Received verification request",
     sectionLine,
     "   Network: " ++ context.requirements.network,
     "   Amount: " ++ toString context.requirements.amount ++ " (atomic units)",
     "   Asset: " ++ context.requirements.asset,
     "   Pay To: " ++ context.requirements.payTo,
     "\n   🔍 Validating EIP-3009 signature...",
     "   🔍 Checking payer balance...",
     "   🔍 Verifying authorization parameters..." ])

/-- The `onAfterVerify` hook registered at lines 98-107. -/
def onAfterVerifyHook (context : VerifyAfterContext) :
    VerifyAfterContext × List String :=
  (context,
   [ "\n📋 [VERIFY] Step 2: Verification complete" ] ++
   (match context.result with
    | .Valid payer =>
      [ "   ✅ Signature VALID", "   👤 Payer: " ++ payer ]
    | .Invalid reason =>
      [ "   ❌ Signature INVALID: " ++ reason.text ]) ++
   [ sectionLine ])

/-- The `onVerifyFailure` hook registered at lines 108-112. -/
def onVerifyFailureHook (context : FailureContext) :
    FailureContext × List String :=
  (context,
   [ "\n❌ [VERIFY] Verification FAILED",
     "   Error: " ++ context.error.message,
     sectionLine ])

/-- The `onBeforeSettle` hook registered at lines 113-121. -/
def onBeforeSettleHook (context : BeforeContext) :
    BeforeContext × List String :=
  (context,
   [ "\n" ++ sectionLine,
     "💰 [SETTLE] Step 1: Received settlement request",
     sectionLine,
     "   Network: " ++ context.requirements.network,
     "   Amount: " ++ toString context.requirements.amount ++ " (atomic units)",
     "\n   📝 Preparing transferWithAuthorization transaction...",
     "   🔗 Submitting to Ethereum Sepolia..." ])

/-- The `onAfterSettle` hook registered at lines 122-133. -/
def onAfterSettleHook (context : SettleAfterContext) :
    SettleAfterContext × List String :=
  (context,
   [ "\n💰 [SETTLE] Step 2: Settlement complete" ] ++
   (match context.result with
    | .Success tx nw payer =>
      [ "   ✅ Transaction SUCCESS",
        "   📜 TX Hash: " ++ tx,
        "   🌐 Network: " ++ nw,
        "   👤 Payer: " ++ payer ]
    | .Failure errorReason _ =>
      [ "   ❌ Transaction FAILED: " ++ errorReason ]) ++
   [ sectionLine ])

/-- The `onSettleFailure` hook registered at lines 134-138. -/
def onSettleFailureHook (context : FailureContext) :
    FailureContext × List String :=
  (context,
   [ "\n❌ [SETTLE] Settlement FAILED",
     "   Error: " ++ context.error.message,
     sectionLine ])

/-! ### Concrete sample values

The demo deployment's requirement (0.1 USDC on Sepolia, from
`src/vendor/src/index.ts` lines 65-84) and matching sample payloads and
signers, used by witnesses and counterexamples. -/

/-- A sample authorization matching `sampleReq` inside a `[10, 20)` window. -/
def sampleAuth : Authorization :=
  ⟨"0xPayer", "0xVendor", 100000, 10, 20, "0xNonce1"⟩

/-- The demo requirement: scheme `exact` on Sepolia, 100000 atomic USDC
units to the vendor. -/
def sampleReq : PaymentRequirements :=
  ⟨"eip155:11155111", "exact", "0xUSDC", 100000, "0xVendor", 60⟩

/-- A well-formed payload for `sampleReq`. -/
def samplePay : PaymentPayload :=
  ⟨"eip155:11155111", "exact", "0xUSDC", sampleAuth, "0xSig"⟩

/-- A sample signer: signature checks pass, the payer holds 1000000 atomic
units, submissions yield hash `0xTX`, and the receipt wait times out. -/
def sampleSigner : FacilitatorEvmSigner :=
  ⟨fun _ => none, fun _ _ _ => 1000000, fun _ _ => true,
   fun _ _ _ => .txHash "0xTX", fun _ _ => .txHash "0xTX",
   fun _ => .timedOut⟩

/-- A signer agreeing with `sampleSigner` on the read-only capabilities but
differing on every mutating one. -/
def sampleSignerAlt : FacilitatorEvmSigner :=
  ⟨fun _ => none, fun _ _ _ => 1000000, fun _ _ => true,
   fun _ _ _ => .reverted "nope", fun _ _ => .reverted "nope",
   fun _ => .confirmed⟩

/-- A payload that mismatches `sampleReq` on both asset and amount. -/
def assetAndAmountMismatchPay : PaymentPayload :=
  ⟨"eip155:11155111", "exact", "0xOtherToken",
   ⟨"0xPayer", "0xVendor", 50000, 10, 20, "0xNonce4"⟩, "0xSig"⟩

/-- A payload matching `sampleReq` structurally except for the amount. -/
def amountOnlyMismatchPay : PaymentPayload :=
  ⟨"eip155:11155111", "exact", "0xUSDC",
   ⟨"0xPayer", "0xVendor", 50000, 10, 20, "0xNonceA"⟩, "0xSig"⟩

/-- A payload on an unregistered network. -/
def unregisteredNetworkPay : PaymentPayload :=
  ⟨"eip155:1", "exact", "0xUSDC", sampleAuth, "0xSig"⟩

/-- A payload whose `network` field is the empty string (JS falsy). -/
def emptyNetworkPay : PaymentPayload :=
  ⟨"", "exact", "0xUSDC", sampleAuth, "0xSig"⟩

/-! ### Claim theorems -/

/-- Claim C1: for every POST /settle request whose `facilitator.settle`
call throws, the transport discriminates decision failures from
operational failures: a thrown message containing `Settlement aborted:`
is answered with status 200 and the success-shaped body
`\x7b success: false, errorReason, network \x7d`; any other thrown message
is answered with status 500 and a plain error body (never success-shaped);
and a structurally returned result is answered with status 200 (never a
server-error status). -/
theorem settle_route_error_classification
    (pp : Option PaymentPayload) (pr : Option PaymentRequirements)
    (msg : String) (hp : pp.isSome = true) (hr : pr.isSome = true) :
    (jsIncludes msg "Settlement aborted:" = true →
      (settleRoute pp pr (.thrown msg)).1.status = 200 ∧
      ∃ er nw, (settleRoute pp pr (.thrown msg)).1.body = .abortBody false er nw) ∧
    (jsIncludes msg "Settlement aborted:" = false →
      (settleRoute pp pr (.thrown msg)).1.status = 500 ∧
      (settleRoute pp pr (.thrown msg)).1.body = .errorBody msg) ∧
    (∀ r : SettleResult, (settleRoute pp pr (.ok r)).1.status = 200) := by
  obtain ⟨p, rfl⟩ := Option.isSome_iff_exists.mp hp
  obtain ⟨q, rfl⟩ := Option.isSome_iff_exists.mp hr
  refine ⟨fun h => ?_, fun h => ?_, fun r => ?_⟩
  · simp [settleRoute, h]
  · simp [settleRoute, h]
  · simp [settleRoute]

/-- Witness for C1 at concrete inputs: an aborted settlement message is
answered 200 with the success-shaped abort body, and an RPC failure
message is answered 500. -/
theorem settle_route_error_classification_witness :
    (settleRoute (some samplePay) (some sampleReq)
      (.thrown "Settlement aborted: nonce already used")).1.status = 200 ∧
    (settleRoute (some samplePay) (some sampleReq)
      (.thrown "rpc unreachable")).1.status = 500 := by
  have h1 := settle_route_error_classification (some samplePay) (some sampleReq)
    "Settlement aborted: nonce already used" rfl rfl
  have h2 := settle_route_error_classification (some samplePay) (some sampleReq)
    "rpc unreachable" rfl rfl
  exact ⟨(h1.1 (by decide)).1, (h2.2.1 (by decide)).1⟩

/-- Claim C2: a POST /verify or POST /settle request missing
`paymentPayload` or `paymentRequirements` is answered with HTTP 400 and an
error body, and the corresponding facilitator operation is not invoked
(the second component of each route is `false`). -/
theorem missing_fields_rejected
    (pp : Option PaymentPayload) (pr : Option PaymentRequirements)
    (vout : VerifyCallOutcome) (sout : SettleCallOutcome)
    (h : pp = none ∨ pr = none) :
    verifyRoute pp pr vout =
      (⟨400, .errorBody "Missing paymentPayload or paymentRequirements"⟩, false) ∧
    settleRoute pp pr sout =
      (⟨400, .errorBody "Missing paymentPayload or paymentRequirements"⟩, false) := by
  rcases h with rfl | rfl
  · cases pr <;> simp [verifyRoute, settleRoute]
  · cases pp <;> simp [verifyRoute, settleRoute]

/-- Witness for C2 at a concrete input: a /verify and a /settle request
with a missing payload are answered 400 without invoking the facilitator. -/
theorem missing_fields_rejected_witness :
    verifyRoute none (some sampleReq) (.ok (.Valid "0xPayer")) =
      (⟨400, .errorBody "Missing paymentPayload or paymentRequirements"⟩, false) ∧
    settleRoute none (some sampleReq) (.ok (.Success "0xTX" "eip155:11155111" "0xPayer")) =
      (⟨400, .errorBody "Missing paymentPayload or paymentRequirements"⟩, false) :=
  missing_fields_rejected none (some sampleReq)
    (.ok (.Valid "0xPayer")) (.ok (.Success "0xTX" "eip155:11155111" "0xPayer"))
    (Or.inl rfl)

/-- Claim C3: for every verify or settle invocation and every registered
hook set — including hooks that throw — the operation's outcome (result or
operational error, with its ledger trace) is returned to the caller
exactly as the hook-free core produces it; a hook exception is never
propagated as the operation's result. -/
theorem hooks_do_not_alter_results
    (hooks : FacHooks) (sg : FacilitatorEvmSigner) (now : Nat)
    (pay : PaymentPayload) (req : PaymentRequirements) :
    (verifyWithHooks hooks sg now pay req).1 = facilitatorVerify sg now pay req ∧
    (settleWithHooks hooks sg now pay req).1 = facilitatorSettle sg now pay req :=
  ⟨rfl, rfl⟩

/-- Claim C10: every lifecycle hook registered on the facilitator only
reads its context and produces console output: each embedded hook
transformer returns its context — requirements, result and error fields
included — unchanged. -/
theorem registered_hooks_frame :
    (∀ c : BeforeContext, (onBeforeVerifyHook c).1 = c) ∧
    (∀ c : VerifyAfterContext, (onAfterVerifyHook c).1 = c) ∧
    (∀ c : FailureContext, (onVerifyFailureHook c).1 = c) ∧
    (∀ c : BeforeContext, (onBeforeSettleHook c).1 = c) ∧
    (∀ c : SettleAfterContext, (onAfterSettleHook c).1 = c) ∧
    (∀ c : FailureContext, (onSettleFailureHook c).1 = c) :=
  ⟨fun _ => rfl, fun _ => rfl, fun _ => rfl,
   fun _ => rfl, fun _ => rfl, fun _ => rfl⟩

/-- When the authorization value differs from the required amount, the
structural check pipeline cannot succeed (it stops at that check or at an
earlier one). -/
lemma structuralChecks_ne_none_of_value_ne (now : Nat) (pay : PaymentPayload)
    (req : PaymentRequirements) (h : pay.authorization.value ≠ req.amount) :
    structuralChecks now pay req ≠ none := by
  unfold structuralChecks
  split_ifs <;> simp_all

/-- Counterexample to claim C4 as stated: the verification checks
short-circuit in order (spec section 4.2), so a payload that mismatches
the required asset as well as the amount is rejected with
`Invalid(AssetMismatch)`, not `Invalid(AmountMismatch)`, even though
`authorization.value != requirements.amount`. -/
theorem amount_mismatch_counterexample :
    assetAndAmountMismatchPay.authorization.value ≠ sampleReq.amount ∧
    (verifyExact sampleSigner 15 assetAndAmountMismatchPay sampleReq).1 =
      .Invalid .AssetMismatch ∧
    (verifyExact sampleSigner 15 assetAndAmountMismatchPay sampleReq).1 ≠
      .Invalid .AmountMismatch := by
  decide

/-- Claim C4 as amended: for every payload under the `exact` scheme whose
network, scheme and asset match the requirements, a value different from
`requirements.amount` makes `verify` return `Invalid(AmountMismatch)`;
and — unconditionally — `verify` accepts only when
`authorization.value` equals `requirements.amount` exactly. -/
theorem exact_amount_equality
    (sg : FacilitatorEvmSigner) (now : Nat) (pay : PaymentPayload)
    (req : PaymentRequirements)
    (hn : pay.network = req.network) (hs : pay.scheme = req.scheme)
    (ha : pay.asset = req.asset) :
    (pay.authorization.value ≠ req.amount →
      (verifyExact sg now pay req).1 = .Invalid .AmountMismatch) ∧
    (∀ p, (verifyExact sg now pay req).1 = .Valid p →
      pay.authorization.value = req.amount) := by
  constructor
  · intro hv
    have hsc : structuralChecks now pay req = some .AmountMismatch := by
      simp [structuralChecks, hn, hs, ha, hv]
    simp [verifyExact, hsc]
  · intro p hvp
    by_contra hne
    have hnn := structuralChecks_ne_none_of_value_ne now pay req hne
    unfold verifyExact at hvp
    rcases hsc : structuralChecks now pay req with _ | r
    · exact hnn hsc
    · rw [hsc] at hvp
      simp at hvp

/-- Witness for C4 at a concrete input: a payload offering 50000 against a
requirement of 100000, all other structural fields matching, is rejected
with `Invalid(AmountMismatch)`. -/
theorem exact_amount_equality_witness :
    (verifyExact sampleSigner 15 amountOnlyMismatchPay sampleReq).1 =
      .Invalid .AmountMismatch := by
  have h := exact_amount_equality sampleSigner 15 amountOnlyMismatchPay
    sampleReq rfl rfl rfl
  exact h.1 (by decide)

/-- Counterexample to claim C5 as stated: the checks short-circuit in
order (spec section 4.2), so a payload whose time window is violated
(`now = 25 >= validBefore = 20`) but whose amount also mismatches is
rejected with `Invalid(AmountMismatch)`, not
`Invalid(ExpiredOrNotYetValid)` — refuting the claimed "exactly when"
for arbitrary payloads. -/
theorem time_window_counterexample :
    (25 < amountOnlyMismatchPay.authorization.validAfter ∨
      amountOnlyMismatchPay.authorization.validBefore ≤ 25) ∧
    (verifyExact sampleSigner 25 amountOnlyMismatchPay sampleReq).1 =
      .Invalid .AmountMismatch ∧
    (verifyExact sampleSigner 25 amountOnlyMismatchPay sampleReq).1 ≠
      .Invalid .ExpiredOrNotYetValid := by
  decide

/-- Claim C5 as amended: for every payload passing the preceding
structural checks (network, scheme, asset, amount, recipient), `verify`
returns `Invalid(ExpiredOrNotYetValid)` exactly when `now < validAfter` or
`now >= validBefore` — so the boundary `now = validAfter` is accepted and
the boundary `now = validBefore` is rejected — and no check involving
`requirements.maxTimeoutSeconds` is applied: changing that field never
changes the verification outcome. -/
theorem time_window_half_open
    (sg : FacilitatorEvmSigner) (now : Nat) (pay : PaymentPayload)
    (req : PaymentRequirements)
    (hn : pay.network = req.network) (hs : pay.scheme = req.scheme)
    (ha : pay.asset = req.asset)
    (hv : pay.authorization.value = req.amount)
    (ht : pay.authorization.toAddress = req.payTo) :
    ((verifyExact sg now pay req).1 = .Invalid .ExpiredOrNotYetValid ↔
      (now < pay.authorization.validAfter ∨
        pay.authorization.validBefore ≤ now)) ∧
    (∀ t, verifyExact sg now pay { req with maxTimeoutSeconds := t } =
      verifyExact sg now pay req) := by
  constructor
  · constructor
    · intro h
      by_contra hcon
      have hsc : structuralChecks now pay req = none := by
        simp [structuralChecks, hn, hs, ha, hv, ht, hcon]
      unfold verifyExact at h
      rw [hsc] at h
      split_ifs at h <;> simp_all
    · intro h
      have hsc : structuralChecks now pay req = some .ExpiredOrNotYetValid := by
        simp [structuralChecks, hn, hs, ha, hv, ht, h]
      simp [verifyExact, hsc]
  · intro t
    cases req
    rfl

/-- Witness for C5 at a concrete input: at `now = validBefore = 20` the
sample payload (all structural fields matching) is rejected with
`Invalid(ExpiredOrNotYetValid)`, exhibiting rejection at the upper
boundary. -/
theorem time_window_half_open_witness :
    (verifyExact sampleSigner 20 samplePay sampleReq).1 =
      .Invalid .ExpiredOrNotYetValid := by
  have h := time_window_half_open sampleSigner 20 samplePay sampleReq
    rfl rfl rfl rfl rfl
  exact h.1.mpr (by decide)

/-- Claim C6: `verify` is pure given external ledger state. Two signers
agreeing on the read-only capabilities (`getCode`, `readContract`,
`verifyTypedData`) — however their mutating capabilities behave — give
identical verification outcomes and traces, and the trace of every
verification contains no mutating ledger capability. -/
theorem verify_pure_and_readonly
    (sg sg' : FacilitatorEvmSigner) (now : Nat) (pay : PaymentPayload)
    (req : PaymentRequirements)
    (hg : sg.getCode = sg'.getCode)
    (hr : sg.readContract = sg'.readContract)
    (hv : sg.verifyTypedData = sg'.verifyTypedData) :
    verifyExact sg now pay req = verifyExact sg' now pay req ∧
    ∀ c ∈ (verifyExact sg now pay req).2, c.isMutating = false := by
  constructor
  · cases sg
    cases sg'
    simp only at hg hr hv
    subst hg
    subst hr
    subst hv
    rfl
  · intro c hc
    unfold verifyExact at hc
    rcases hsc : structuralChecks now pay req with _ | r <;> rw [hsc] at hc
    · split_ifs at hc
      · simp at hc
        rcases hc with rfl | rfl <;> rfl
      · simp at hc
        rcases hc with rfl | rfl <;> rfl
      · simp at hc
        subst hc
        rfl
    · simp at hc

/-- Witness for C6 at concrete inputs: `sampleSigner` and
`sampleSignerAlt` agree on the read capabilities and disagree on every
mutating one, yet verification of the sample payload is identical. -/
theorem verify_pure_and_readonly_witness :
    verifyExact sampleSigner 15 samplePay sampleReq =
      verifyExact sampleSignerAlt 15 samplePay sampleReq :=
  (verify_pure_and_readonly sampleSigner sampleSignerAlt 15 samplePay
    sampleReq rfl rfl rfl).1

/-- Claim C7: a payload whose `(network, scheme)` pair is not in the
registry (anything other than `(eip155:11155111, exact)` in this
deployment) makes `verify` produce the operational `UnsupportedScheme`
error — never a structurally returned result, in particular never an
`Invalid` decision — and the transport answers the request with HTTP 500. -/
theorem unregistered_scheme_operational
    (sg : FacilitatorEvmSigner) (now : Nat) (pay : PaymentPayload)
    (req : PaymentRequirements)
    (h : registeredSchemes.contains (pay.network, pay.scheme) = false) :
    (facilitatorVerify sg now pay req).1 =
      .error (.UnsupportedScheme pay.network pay.scheme) ∧
    (∀ r : VerifyResult, (facilitatorVerify sg now pay req).1 ≠ .ok r) ∧
    (verifyEndpoint sg now (some pay) (some req)).1.status = 500 := by
  have h' : (pay.network, pay.scheme) ∉ registeredSchemes := by
    simpa using h
  have h1 : facilitatorVerify sg now pay req =
      (.error (.UnsupportedScheme pay.network pay.scheme), []) := by
    simp [facilitatorVerify, h']
  refine ⟨by rw [h1], fun r hr => ?_, ?_⟩
  · rw [h1] at hr
    simp at hr
  · show (verifyRoute (some pay) (some req) _).1.status = 500
    rw [h1]
    simp [verifyRoute]

/-- Witness for C7 at a concrete input: mainnet (`eip155:1`) is not
registered, so verification errors operationally and the endpoint answers
500. -/
theorem unregistered_scheme_operational_witness :
    (facilitatorVerify sampleSigner 15 unregisteredNetworkPay sampleReq).1 =
      .error (.UnsupportedScheme "eip155:1" "exact") ∧
    (verifyEndpoint sampleSigner 15 (some unregisteredNetworkPay)
      (some sampleReq)).1.status = 500 := by
  have h := unregistered_scheme_operational sampleSigner 15
    unregisteredNetworkPay sampleReq (by decide)
  exact ⟨h.1, h.2.2⟩

/-- Claim C8: a settlement whose receipt wait times out is reported to the
caller as the terminal `Failure(errorReason = "settlement timeout")`, and
the ledger submission is not retried: the trace of the whole settle
operation contains exactly one `writeContract` submission and no
`sendTransaction`. -/
theorem settlement_timeout_terminal_no_retry
    (sg : FacilitatorEvmSigner) (now : Nat) (pay : PaymentPayload)
    (req : PaymentRequirements) (txh : String)
    (hreg : registeredSchemes.contains (pay.network, pay.scheme) = true)
    (hsc : structuralChecks now pay req = none)
    (hsig : sg.verifyTypedData pay.authorization pay.signature = true)
    (htx : sg.writeContract req.asset "transferWithAuthorization"
      (settleArgs pay) = .txHash txh)
    (hwait : sg.waitForTransactionReceipt txh = .timedOut) :
    facilitatorSettle sg now pay req =
      (.ok (.Failure "settlement timeout" pay.network),
       [.verifyTypedData, .writeContract, .waitForTransactionReceipt]) ∧
    (facilitatorSettle sg now pay req).2.count .writeContract = 1 ∧
    (facilitatorSettle sg now pay req).2.count .sendTransaction = 0 := by
  have hreg' : (pay.network, pay.scheme) ∈ registeredSchemes := by
    simpa using hreg
  have h1 : facilitatorSettle sg now pay req =
      (.ok (.Failure "settlement timeout" pay.network),
       [.verifyTypedData, .writeContract, .waitForTransactionReceipt]) := by
    simp [facilitatorSettle, hreg', hsc, hsig, htx, hwait]
  refine ⟨h1, ?_, ?_⟩ <;> rw [h1] <;> rfl

/-- Witness for C8 at concrete inputs: `sampleSigner` submits and then
times out waiting for the receipt; settling the sample payload yields the
terminal timeout failure after exactly one submission. -/
theorem settlement_timeout_terminal_no_retry_witness :
    facilitatorSettle sampleSigner 15 samplePay sampleReq =
      (.ok (.Failure "settlement timeout" "eip155:11155111"),
       [.verifyTypedData, .writeContract, .waitForTransactionReceipt]) :=
  (settlement_timeout_terminal_no_retry sampleSigner 15 samplePay sampleReq
    "0xTX" (by decide) (by decide) rfl rfl rfl).1

/-- Counterexample to claim C9 as stated: JS `String.replace` with a
string pattern removes the first occurrence anywhere (not a leading
prefix), and `|| "unknown"` replaces any falsy `network` (not only a
missing one). For the thrown message `"x Settlement aborted: y"` — which
contains the marker mid-string and has no leading prefix to remove — and
a payload whose `network` is the empty string (present but falsy), the
handler returns `errorReason = "x y"` (not the unchanged message) and
`network = "unknown"` (not the payload's `network`). -/
theorem abort_body_counterexample :
    settleRoute (some emptyNetworkPay) (some sampleReq)
      (.thrown "x Settlement aborted: y") =
      (⟨200, .abortBody false "x y" "unknown"⟩, true) ∧
    "x y" ≠ "x Settlement aborted: y" ∧
    "unknown" ≠ emptyNetworkPay.network := by
  decide

/-- Claim C9 as amended: every POST /settle request answered via the
`Settlement aborted:` branch gets status 200 and the body
`\x7b success: false, errorReason, network \x7d` where `errorReason` is the
thrown message with its first occurrence of `"Settlement aborted: "`
(trailing space included) removed — the message unchanged when that exact
string does not occur — and `network` is the request body's
`paymentPayload.network` when present and non-empty, otherwise
`"unknown"`. -/
theorem abort_body_contents
    (pp : Option PaymentPayload) (pr : Option PaymentRequirements)
    (msg : String) (hp : pp.isSome = true) (hr : pr.isSome = true)
    (hm : jsIncludes msg "Settlement aborted:" = true) :
    settleRoute pp pr (.thrown msg) =
      (⟨200, .abortBody false (jsReplaceFirst msg "Settlement aborted: " "")
        (networkOrUnknown pp)⟩, true) := by
  obtain ⟨p, rfl⟩ := Option.isSome_iff_exists.mp hp
  obtain ⟨q, rfl⟩ := Option.isSome_iff_exists.mp hr
  simp [settleRoute, hm]

/-- Witness for C9 at a concrete input: the thrown message
`"Settlement aborted: insufficient funds"` produces the abort body with
the marker stripped and the payload's network. -/
theorem abort_body_contents_witness :
    settleRoute (some samplePay) (some sampleReq)
      (.thrown "Settlement aborted: insufficient funds") =
      (⟨200, .abortBody false "insufficient funds" "eip155:11155111"⟩, true) := by
  have h := abort_body_contents (some samplePay) (some sampleReq)
    "Settlement aborted: insufficient funds" rfl rfl (by decide)
  rw [h]
  decide

end X402
